import Mathlib

/-!
Verification of the MCP (Model Context Protocol) client of the
`ansible.mcp` collection, embedded from
`plugins/plugin_utils/mcp.py`.

The embedding follows the Python source:

* Python runtime values that flow through the schema validator are
  represented by `PyValue`.  A float payload is never inspected by the
  validator (only `isinstance` checks are performed on it), so the
  `pyfloat` constructor carries no payload.
* Tool definitions and their input schemas are read by the code with a
  fixed set of `dict.get` accesses (`"name"`, `"inputSchema"`, `"type"`,
  `"properties"`, `"required"`); the embedding types each field at the
  shape those accesses assume.  A missing key is an `Option.none` or an
  empty list, matching the `.get(…, default)` calls in the source.
* Error strings reproduce the Python messages verbatim.  The ASCII
  apostrophe (code point 39) used in those messages is written `pyq`.
* Exceptions are modelled with `Except`; the distinct Python exception
  classes raised by the client (`MCPError`, `ValueError`, and exceptions
  propagated from the transport, e.g. `AnsibleConnectionFailure`) are the
  constructors of `PyError`.
-/

namespace MCP

/-- The ASCII apostrophe (code point 39) that the Python f-strings place
around interpolated values. -/
def pyq : String := (Char.ofNat 39).toString

/-- A Python runtime value, as far as the schema validator observes it:
the validator only ever asks `isinstance` questions and reads
`type(value).__name__`, so a float's numeric payload is irrelevant and
is not carried. -/
inductive PyValue where
  | pynone : PyValue
  | pybool : Bool → PyValue
  | pyint : Int → PyValue
  | pyfloat : PyValue
  | pystr : String → PyValue
  | pylist : List PyValue → PyValue
  | pydict : List (String × PyValue) → PyValue

/-- `type(value).__name__` for each `PyValue`. -/
def typeName : PyValue → String
  | .pynone => "NoneType"
  | .pybool _ => "bool"
  | .pyint _ => "int"
  | .pyfloat => "float"
  | .pystr _ => "str"
  | .pylist _ => "list"
  | .pydict _ => "dict"

/-- The targets of the `isinstance` checks performed by
`MCPClient.validate`: the values of the `schema_type_to_python_type`
mapping in the source (`str`, `(int, float)`, `int`, `bool`, `list`,
`dict`, `type(None)`). -/
inductive PyType where
  | tStr : PyType
  | tNumber : PyType
  | tInt : PyType
  | tBool : PyType
  | tList : PyType
  | tDict : PyType
  | tNoneType : PyType
deriving DecidableEq, Repr

/-- Python `isinstance` against the targets above.  In CPython `bool` is
a subclass of `int`, so `isinstance(True, int)` and
`isinstance(True, (int, float))` are both `True`; the `tInt` and
`tNumber` rows record that subclass relation. -/
def isinstance : PyValue → PyType → Bool
  | .pystr _, .tStr => true
  | .pyint _, .tNumber => true
  | .pyfloat, .tNumber => true
  | .pybool _, .tNumber => true
  | .pyint _, .tInt => true
  | .pybool _, .tInt => true
  | .pybool _, .tBool => true
  | .pylist _, .tList => true
  | .pydict _, .tDict => true
  | .pynone, .tNoneType => true
  | _, _ => false

/-- The `schema_type_to_python_type` table of `MCPClient.validate`
(lines 605-613 of `plugins/plugin_utils/mcp.py`); `.get` on a key
outside the table yields `none`. -/
def schema_type_to_python_type (ty : String) : Option PyType :=
  if ty = "string" then some .tStr
  else if ty = "number" then some .tNumber
  else if ty = "integer" then some .tInt
  else if ty = "boolean" then some .tBool
  else if ty = "array" then some .tList
  else if ty = "object" then some .tDict
  else if ty = "null" then some .tNoneType
  else none

/-- One property of a tool's input schema, as read by the validator:
`parameter_schema.get("type")`.  `none` models a missing `"type"` key. -/
structure PropSchema where
  type : Option String
deriving DecidableEq, Repr

/-- A tool's `inputSchema`, as read by the validator:
`schema.get("type")`, `schema.get("properties", {})` and
`schema.get("required", [])`.  Missing keys are `none` / `[]`. -/
structure InputSchema where
  type : Option String
  properties : List (String × PropSchema)
  required : List String
deriving DecidableEq, Repr

/-- A catalogued tool, as read by the client: `tool_def.get("name")`
and `tool_definition.get("inputSchema", {})`. -/
structure ToolDef where
  name : String
  inputSchema : InputSchema
deriving DecidableEq, Repr

/-- The keyword arguments of a tool call.  Python `**kwargs` is a dict
with unique keys; it is embedded as an association list in insertion
order. -/
abbrev Kwargs := List (String × PyValue)

/-- Python `param in kwargs` (dict key membership). -/
def hasKey (kwargs : Kwargs) (k : String) : Bool :=
  (kwargs.lookup k).isSome

/-- `[param for param in required_parameters if param not in kwargs]`
(line 572 of the source). -/
def missingRequired (schema : InputSchema) (kwargs : Kwargs) : List String :=
  schema.required.filter (fun p => !(hasKey kwargs p))

/-- `[param for param in kwargs if param not in
parameters_from_schema_properties]` (lines 580-582 of the source). -/
def unknownKwargs (schema : InputSchema) (kwargs : Kwargs) : List String :=
  (kwargs.map Prod.fst).filter (fun p => (schema.properties.lookup p).isNone)

/-- Message of the `ValueError` raised for an unsupported schema type
(lines 566-569). -/
def unsupportedSchemaTypeMsg (tool st : String) : String :=
  "Tool " ++ pyq ++ tool ++ pyq ++ " has unsupported schema type " ++ pyq ++ st ++ pyq
    ++ ", expected " ++ pyq ++ "object" ++ pyq

/-- Message of the `ValueError` raised for missing required parameters
(lines 573-576): all missing names are joined with `", "`. -/
def missingRequiredMsg (tool : String) (missing : List String) : String :=
  "Tool " ++ pyq ++ tool ++ pyq ++ " missing required parameters: "
    ++ String.intercalate ", " missing

/-- Message of the `ValueError` raised for unknown parameters
(lines 583-586). -/
def unknownParamsMsg (tool : String) (unknown : List String) : String :=
  "Tool " ++ pyq ++ tool ++ pyq ++ " received unknown parameters: "
    ++ String.intercalate ", " unknown

/-- Message of the `ValueError` raised when a parameter is `None` but
its declared type is not `"null"` (lines 597-600). -/
def noneNotAllowedMsg (tool pname ptype : String) : String :=
  "Parameter " ++ pyq ++ pname ++ pyq ++ " for tool " ++ pyq ++ tool ++ pyq
    ++ " cannot be None (expected type " ++ pyq ++ ptype ++ pyq ++ ")"

/-- Message of the `ValueError` raised for a declared type outside the
`schema_type_to_python_type` table (lines 616-619). -/
def unsupportedParamTypeMsg (tool pname ptype : String) : String :=
  "Tool " ++ pyq ++ tool ++ pyq ++ " has unsupported parameter type " ++ pyq ++ ptype
    ++ pyq ++ " for parameter " ++ pyq ++ pname ++ pyq

/-- Message of the `ValueError` raised on a type mismatch
(lines 621-624): it names the parameter, the declared type, and
`type(parameter_value).__name__`. -/
def typeMismatchMsg (tool pname ptype : String) (v : PyValue) : String :=
  "Parameter " ++ pyq ++ pname ++ pyq ++ " for tool " ++ pyq ++ tool ++ pyq
    ++ " should be of type " ++ pyq ++ ptype ++ pyq ++ ", but got " ++ pyq
    ++ typeName v ++ pyq

/-- The body of the per-parameter type check of `MCPClient.validate`
(lines 594-624), for one supplied argument whose property schema
declares a truthy `"type"`.  The `None` special case is tested first,
exactly as in the source. -/
def checkParamType (tool pname ptype : String) : PyValue → Except String Unit
  | .pynone =>
    if ptype ≠ "null" then .error (noneNotAllowedMsg tool pname ptype)
    else .ok ()
  | v =>
    match schema_type_to_python_type ptype with
    | none => .error (unsupportedParamTypeMsg tool pname ptype)
    | some pt =>
      if !(isinstance v pt) then .error (typeMismatchMsg tool pname ptype v)
      else .ok ()

/-- The `for parameter_name, parameter_value in kwargs.items()` loop of
`MCPClient.validate` (lines 589-624): arguments are checked in
insertion order; the first failing argument raises.  Arguments not in
`properties`, or whose property schema has a falsy `"type"` (missing or
the empty string), are skipped. -/
def checkParamsLoop (tool : String) (props : List (String × PropSchema)) :
    Kwargs → Except String Unit
  | [] => .ok ()
  | (pname, v) :: rest =>
    match props.lookup pname with
    | none => checkParamsLoop tool props rest
    | some ps =>
      match ps.type with
      | none => checkParamsLoop tool props rest
      | some pt =>
        if pt = "" then checkParamsLoop tool props rest
        else
          match checkParamType tool pname pt v with
          | .error e => .error e
          | .ok _ => checkParamsLoop tool props rest

/-- The guard `if schema_type and schema_type != "object"` of
`MCPClient.validate` (line 566): a truthy declared schema type other
than `"object"` blocks validation. -/
def schemaTypeBlocks (schema : InputSchema) : Bool :=
  match schema.type with
  | some st => st ≠ "" && st ≠ "object"
  | none => false

/-- The argument checks of `MCPClient.validate` (lines 560-624), given
the tool's input schema: schema-type guard, missing-required check,
unknown-parameter check (only when `properties` is truthy, i.e.
non-empty), then the per-parameter type loop. -/
def checkArgs (tool : String) (schema : InputSchema) (kwargs : Kwargs) :
    Except String Unit :=
  if schemaTypeBlocks schema then
    .error (unsupportedSchemaTypeMsg tool (schema.type.getD ""))
  else
    let missing := missingRequired schema kwargs
    if !missing.isEmpty then .error (missingRequiredMsg tool missing)
    else
      let unknownStep : Except String Unit :=
        if !schema.properties.isEmpty then
          let unknown := unknownKwargs schema kwargs
          if !unknown.isEmpty then .error (unknownParamsMsg tool unknown)
          else .ok ()
        else .ok ()
      match unknownStep with
      | .error e => .error e
      | .ok _ => checkParamsLoop tool schema.properties kwargs

/-- A JSON-RPC request composed by `MCPClient._build_request`
(lines 378-395): `{"jsonrpc": "2.0", "id": …, "method": …}` plus
optional `"params"`.  The constant `"jsonrpc"` field is not carried. -/
structure JRequest where
  id : Nat
  method : String
  params : Option PyValue

/-- A JSON-RPC notification: a payload without an `"id"`. -/
structure JNotification where
  method : String
deriving DecidableEq, Repr

/-- One transport I/O event performed by the client: a call of
`transport.request` or of `transport.notify`. -/
inductive TraceEvent where
  | req : JRequest → TraceEvent
  | notif : JNotification → TraceEvent

/-- The `"result"` member of a JSON-RPC response, as the client stores
and reads it.  `listing` is a result dict whose `"tools"` key holds a
tool list (the shape `tools/list` answers with); `val` is any other
result payload (its `"tools"` key, if read with
`.get("tools", [])`, defaults to `[]`). -/
inductive RpcResult where
  | val : PyValue → RpcResult
  | listing : List ToolDef → RpcResult

/-- `tools_response.get("tools", [])` (line 486 of the source). -/
def RpcResult.getTools : RpcResult → List ToolDef
  | .listing ts => ts
  | .val _ => []

/-- A parsed JSON-RPC response dict, by the two members the client
reads: `"result" in response` / `response["result"]`, and
`response.get("error", …)`.  The error member is carried as its
rendered (f-string) form. -/
structure RpcResponse where
  result : Option RpcResult
  error : Option String

/-- A model of the transport seen through the abstract `Transport`
contract: `request` returns the parsed response for a given payload or
raises (`Except.error` carries the exception's message), and `notify`
returns nothing or raises.  Because every outgoing request carries a
fresh id, a function of the payload loses no generality. -/
structure TransportModel where
  request : JRequest → Except String RpcResponse
  notify : JNotification → Except String Unit

/-- The mutable fields of `MCPClient` (lines 357-367 of the source). -/
structure ClientState where
  connected : Bool
  server_info : Option RpcResult
  tools_cache : Option RpcResult
  request_id : Nat

/-- A fresh client, as built by `MCPClient.__init__`. -/
def freshClient : ClientState :=
  { connected := false, server_info := none, tools_cache := none, request_id := 0 }

/-- The Python exception classes raised by `MCPClient` methods:
`MCPError`, `ValueError`, and exceptions propagated unchanged from the
transport layer (e.g. `AnsibleConnectionFailure`). -/
inductive PyError where
  | mcpError : String → PyError
  | valueError : String → PyError
  | transErr : String → PyError

/-- Outcome of one client method call: its return value or raised
exception, the client state it leaves behind, and the transport I/O it
performed, in order. -/
structure MRes (α : Type) where
  out : Except PyError α
  state : ClientState
  trace : List TraceEvent

/-- `MCPClient._get_next_id` composed into `_build_request`
(lines 369-395): the counter is incremented and the new value becomes
the request id. -/
def _build_request (s : ClientState) (method : String) (params : Option PyValue) :
    JRequest × ClientState :=
  ({ id := s.request_id + 1, method := method, params := params },
   { s with request_id := s.request_id + 1 })

/-- The literal `params` of the `initialize` request (lines 408-421). -/
def initParamsVal : PyValue :=
  .pydict
    [("protocolVersion", .pystr "2025-03-26"),
     ("capabilities", .pydict
        [("roots", .pydict [("listChanged", .pybool true)]),
         ("sampling", .pydict [])]),
     ("clientInfo", .pydict
        [("name", .pystr "ansible-mcp-client"),
         ("version", .pystr "1.0.0")])]

/-- The literal `notifications/initialized` notification
(lines 434-437). -/
def initNotification : JNotification := { method := "notifications/initialized" }

/-- The `initialize` request the client sends from state `s`:
`transport.connect()` does not touch the id counter, so the request id
is `s.request_id + 1`. -/
def initRequestOf (s : ClientState) : JRequest :=
  { id := s.request_id + 1, method := "initialize", params := some initParamsVal }

/-- The `tools/list` request the client sends from state `s`. -/
def toolsListRequestOf (s : ClientState) : JRequest :=
  { id := s.request_id + 1, method := "tools/list", params := none }

/-- The `tools/call` request the client sends from state `s` for tool
`n` with arguments `kw` (lines 514-520). -/
def callRequestOf (s : ClientState) (n : String) (kw : Kwargs) : JRequest :=
  { id := s.request_id + 1, method := "tools/call",
    params := some (.pydict [("name", .pystr n), ("arguments", .pydict kw)]) }

/-- The message of the `MCPError` raised by Ready-only operations on an
uninitialized client (lines 450, 483, 509, 542). -/
def notInitializedMsg : String := "Client not initialized. Call initialize() first."

/-- `MCPClient.initialize` (lines 397-438): connect once, send the
`initialize` request; a `"result"` member caches server info, otherwise
`MCPError` is raised; then the `notifications/initialized` notification
is sent — a notify failure propagates, after server info was cached. -/
def initClient (t : TransportModel) (s : ClientState) : MRes Unit :=
  let s1 := if s.connected then s else { s with connected := true }
  let (req, s2) := _build_request s1 "initialize" (some initParamsVal)
  match t.request req with
  | .error e => { out := .error (.transErr e), state := s2, trace := [.req req] }
  | .ok resp =>
    match resp.result with
    | none =>
      { out := .error (.mcpError ("Initialization failed: "
          ++ resp.error.getD "Error in initialization")),
        state := s2, trace := [.req req] }
    | some r =>
      let s3 := { s2 with server_info := some r }
      match t.notify initNotification with
      | .error e =>
        { out := .error (.transErr e), state := s3,
          trace := [.req req, .notif initNotification] }
      | .ok _ =>
        { out := .ok (), state := s3,
          trace := [.req req, .notif initNotification] }

/-- `MCPClient.list_tools` (lines 440-467): Ready gate, cache hit, or a
single `tools/list` request whose `"result"` is cached and returned. -/
def list_tools (t : TransportModel) (s : ClientState) : MRes RpcResult :=
  if !s.connected || s.server_info.isNone then
    { out := .error (.mcpError notInitializedMsg), state := s, trace := [] }
  else
    match s.tools_cache with
    | some c => { out := .ok c, state := s, trace := [] }
    | none =>
      let (req, s2) := _build_request s "tools/list" none
      match t.request req with
      | .error e => { out := .error (.transErr e), state := s2, trace := [.req req] }
      | .ok resp =>
        match resp.result with
        | some r =>
          { out := .ok r, state := { s2 with tools_cache := some r }, trace := [.req req] }
        | none =>
          { out := .error (.mcpError ("Failed to list tools: "
              ++ resp.error.getD "Error in listing tools")),
            state := s2, trace := [.req req] }

/-- `MCPClient.get_tool` (lines 469-492): Ready gate, then the first
catalogued tool whose `"name"` equals `tool`, else `ValueError`. -/
def get_tool (t : TransportModel) (s : ClientState) (tool : String) : MRes ToolDef :=
  if !s.connected || s.server_info.isNone then
    { out := .error (.mcpError notInitializedMsg), state := s, trace := [] }
  else
    let r := list_tools t s
    match r.out with
    | .error e => { out := .error e, state := r.state, trace := r.trace }
    | .ok tr =>
      match tr.getTools.find? (fun td => td.name = tool) with
      | some td => { out := .ok td, state := r.state, trace := r.trace }
      | none =>
        { out := .error (.valueError ("Tool " ++ pyq ++ tool ++ pyq ++ " not found")),
          state := r.state, trace := r.trace }

/-- `MCPClient.validate` (lines 545-624): fetch the tool definition via
`get_tool`, then run the purely local argument checks; check failures
raise `ValueError`. -/
def validate (t : TransportModel) (s : ClientState) (tool : String) (kwargs : Kwargs) :
    MRes Unit :=
  let r := get_tool t s tool
  match r.out with
  | .error e => { out := .error e, state := r.state, trace := r.trace }
  | .ok td =>
    match checkArgs tool td.inputSchema kwargs with
    | .error m => { out := .error (.valueError m), state := r.state, trace := r.trace }
    | .ok _ => { out := .ok (), state := r.state, trace := r.trace }

/-- `MCPClient.call_tool` (lines 494-529): Ready gate, validation, then
one `tools/call` request with params `{"name": tool, "arguments":
kwargs}` whose `"result"` is returned. -/
def call_tool (t : TransportModel) (s : ClientState) (tool : String) (kwargs : Kwargs) :
    MRes RpcResult :=
  if !s.connected || s.server_info.isNone then
    { out := .error (.mcpError notInitializedMsg), state := s, trace := [] }
  else
    let v := validate t s tool kwargs
    match v.out with
    | .error e => { out := .error e, state := v.state, trace := v.trace }
    | .ok _ =>
      let (req, s2) := _build_request v.state "tools/call"
        (some (.pydict [("name", .pystr tool), ("arguments", .pydict kwargs)]))
      match t.request req with
      | .error e =>
        { out := .error (.transErr e), state := s2, trace := v.trace ++ [.req req] }
      | .ok resp =>
        match resp.result with
        | some r => { out := .ok r, state := s2, trace := v.trace ++ [.req req] }
        | none =>
          { out := .error (.mcpError ("Failed to call tool " ++ pyq ++ tool ++ pyq
              ++ ": " ++ resp.error.getD "Error in tool call")),
            state := s2, trace := v.trace ++ [.req req] }

/-- `MCPClient.close` (lines 626-631): the transport is closed and the
cached state cleared; the id counter is left alone. -/
def closeClient (s : ClientState) : ClientState :=
  { s with connected := false, server_info := none, tools_cache := none }

/-- One public client operation, for reasoning about operation
sequences on a single client instance. -/
inductive ClientOp where
  | opInit : ClientOp
  | opListTools : ClientOp
  | opGetTool : String → ClientOp
  | opValidate : String → Kwargs → ClientOp
  | opCallTool : String → Kwargs → ClientOp
  | opClose : ClientOp

/-- Run one operation, keeping the state and the transport I/O trace. -/
def runOp (t : TransportModel) (s : ClientState) : ClientOp → ClientState × List TraceEvent
  | .opInit => let r := initClient t s; (r.state, r.trace)
  | .opListTools => let r := list_tools t s; (r.state, r.trace)
  | .opGetTool n => let r := get_tool t s n; (r.state, r.trace)
  | .opValidate n kw => let r := validate t s n kw; (r.state, r.trace)
  | .opCallTool n kw => let r := call_tool t s n kw; (r.state, r.trace)
  | .opClose => (closeClient s, [])

/-- Run a sequence of operations, concatenating the I/O traces. -/
def runOps (t : TransportModel) (s : ClientState) : List ClientOp → ClientState × List TraceEvent
  | [] => (s, [])
  | op :: rest =>
    let r1 := runOp t s op
    let r2 := runOps t r1.1 rest
    (r2.1, r1.2 ++ r2.2)

/-- The ids attached to the requests of a trace, in emission order;
notifications carry no id. -/
def requestIds (tr : List TraceEvent) : List Nat :=
  tr.filterMap (fun e => match e with | .req r => some r.id | .notif _ => none)

/-- A concrete catalogued tool used by witnesses and counterexamples:
one required string parameter `x`. -/
def cxToolDef : ToolDef :=
  { name := "t1",
    inputSchema :=
      { type := some "object",
        properties := [("x", { type := some "string" })],
        required := ["x"] } }

/-- A concrete transport: answers `tools/list` with a catalog holding
`cxToolDef`, answers every other request with an opaque result, and
accepts notifications. -/
def cxTransport : TransportModel :=
  { request := fun r =>
      if r.method = "tools/list" then
        .ok { result := some (.listing [cxToolDef]), error := none }
      else
        .ok { result := some (.val (.pystr "done")), error := none },
    notify := fun _ => .ok () }

/-- A concrete initialized client whose tool catalog is not yet
cached. -/
def cxState : ClientState :=
  { connected := true, server_info := some (.val (.pydict [])),
    tools_cache := none, request_id := 2 }

/-- The same client with the catalog already cached. -/
def cxStateCached : ClientState :=
  { cxState with tools_cache := some (.listing [cxToolDef]) }

/-- A concrete transport whose `notify` always raises (e.g. a broken
pipe) while `request` succeeds. -/
def cxNotifyFailTransport : TransportModel :=
  { request := fun r =>
      if r.method = "tools/list" then
        .ok { result := some (.listing [cxToolDef]), error := none }
      else
        .ok { result := some (.val (.pystr "srv")), error := none },
    notify := fun _ => .error "pipe closed" }

/-- What one bounded read of the subprocess stdout can observe in
`Stdio._stdout_read` (lines 124-146): `select` returns no ready
descriptor within `wait_timeout` (timeout); `select` reports the
stream readable but it is closed, so `os.read` returns the empty byte
string (EOF); or data is read, carried here as the `json.loads`
outcome of the stripped text. -/
inductive StdoutRead where
  | timeoutNoData : StdoutRead
  | eofNoData : StdoutRead
  | payload : Except String PyValue → StdoutRead

/-- `str` of the `json.JSONDecodeError` that CPython's `json.loads`
raises on the empty document — the value `_stdout_read` feeds it at
EOF after `os.read(...).decode("utf-8").strip()` yields `""`. -/
def jsonEmptyDocErrorMsg : String := "Expecting value: line 1 column 1 (char 0)"

/-- The timeout error message of `_stdout_read` (lines 138-140). -/
def stdoutTimeoutMsg (wait_timeout : Nat) : String :=
  "MCP server response timeout after " ++ toString wait_timeout ++ " seconds."

/-- `Stdio._stdout_read` (lines 124-146): raise the timeout
`AnsibleConnectionFailure` when `select` reports nothing; otherwise
`json.loads` the stripped bytes — at EOF the bytes are empty and
`json.loads("")` raises the decode error. -/
def _stdout_read (wait_timeout : Nat) : StdoutRead → Except String PyValue
  | .timeoutNoData => .error (stdoutTimeoutMsg wait_timeout)
  | .eofNoData => .error jsonEmptyDocErrorMsg
  | .payload doc => doc

/-- The observable condition of a `Stdio` transport at one `request`
call: whether `_process` exists and still runs (the
`_ensure_server_started` decorator, lines 159-173, with the drained
output), whether `_stdin_write` raises, and what the stdout read
observes. -/
structure StdioState where
  started : Bool
  running : Bool
  stdoutCapture : String
  stderrCapture : String
  writeError : Option String
  stdout : StdoutRead

/-- Message raised when `_process is None` (line 165). -/
def stdioNotStartedMsg : String := "MCP server process not started."

/-- Message raised when the process has exited (lines 168-170). -/
def stdioTerminatedMsg (st : StdioState) : String :=
  "MCP server process terminated unexpectedly. stdout: " ++ st.stdoutCapture
    ++ ", stderr: " ++ st.stderrCapture

/-- The wrapper `Stdio.request` puts around any exception raised while
writing or reading (lines 206-207); the timeout
`AnsibleConnectionFailure` and the JSON decode error are both caught
by its `except Exception` and wrapped. -/
def stdioRequestWrapMsg (e : String) : String :=
  "Error sending request to MCP server: " ++ e

/-- `Stdio.request` (lines 190-207) guarded by
`_ensure_server_started`: precondition checks, write, bounded read,
with any write/read exception wrapped. -/
def stdioRequest (st : StdioState) (wait_timeout : Nat) : Except String PyValue :=
  if !st.started then .error stdioNotStartedMsg
  else if !st.running then .error (stdioTerminatedMsg st)
  else
    match st.writeError with
    | some e => .error (stdioRequestWrapMsg e)
    | none =>
      match _stdout_read wait_timeout st.stdout with
      | .error e => .error (stdioRequestWrapMsg e)
      | .ok doc => .ok doc

/-- The error message the repository's own unit test
`test_stdout_read_no_data`
(`tests/unit/plugins/module_utils/test_stdio_transport.py`, line 168)
asserts for a read that yields no data. -/
def testExpectedNoResponseMsg : String := "No response from MCP server"

/-- A `Stdio` transport whose subprocess is alive but whose stdout
stream is closed with no data available. -/
def eofStdioState : StdioState :=
  { started := true, running := true, stdoutCapture := "", stderrCapture := "",
    writeError := none, stdout := .eofNoData }

/-- The mutable fields of `StreamableHTTP` (lines 229-240): the
caller-supplied custom headers and the captured session id. -/
structure HTTPState where
  headersCustom : List (String × String)
  session_id : Option String
deriving DecidableEq, Repr

/-- Python `d[k] = v` on a dict embedded as an association list with
unique keys: replace the value in place if the key exists, else append
at the end. -/
def dictSet : List (String × String) → String → String → List (String × String)
  | [], k, v => [(k, v)]
  | (a, b) :: rest, k, v =>
    if a = k then (k, v) :: rest else (a, b) :: dictSet rest k v

/-- Python `d.update(other)`: assign each pair of `other` in order. -/
def dictUpdate (d other : List (String × String)) : List (String × String) :=
  other.foldl (fun acc kv => dictSet acc kv.1 kv.2) d

/-- The fixed base headers of `_build_headers` (lines 324-328). -/
def baseHeaders : List (String × String) :=
  [("Content-Type", "application/json"),
   ("Accept", "application/json, text/event-stream"),
   ("MCP-Protocol-Version", "2025-06-18")]

/-- `StreamableHTTP._build_headers` (lines 318-337): base headers,
updated with the custom headers, then — only when the stored session
id is truthy (present and non-empty) — the session header. -/
def _build_headers (s : HTTPState) : List (String × String) :=
  let headers := dictUpdate baseHeaders s.headersCustom
  match s.session_id with
  | some sid => if sid ≠ "" then dictSet headers "Mcp-Session-Id" sid else headers
  | none => headers

/-- `StreamableHTTP._extract_session_id` (lines 339-348): store the
response's session header whenever it is present (`is not None`),
overwriting any previous value; never clear it. -/
def _extract_session_id (s : HTTPState) (respHeaders : List (String × String)) : HTTPState :=
  match respHeaders.lookup "Mcp-Session-Id" with
  | some h => { s with session_id := some h }
  | none => s

/-- One HTTP response as the transport observes it: the status code,
the response headers, and the body by its `json.loads` outcome. -/
structure HTTPResponse where
  status : Nat
  headers : List (String × String)
  body : Except String PyValue

/-- Outcome of one `StreamableHTTP` operation: return value or raised
exception message, the transport state left behind, and the headers
attached to the outgoing POST. -/
structure HTTPOut (α : Type) where
  out : Except String α
  state : HTTPState
  sent : List (String × String)

/-- Error message of `notify` on a status other than 202
(lines 267-273): the inner `Unexpected response code` exception is
wrapped by the outer `Failed to send notification` handler. -/
def httpNotifyFailMsg (code : Nat) : String :=
  "Failed to send notification: Unexpected response code: " ++ toString code

/-- Error message of `request` on a status other than 200
(lines 295-309). -/
def httpRequestFailCodeMsg (code : Nat) : String :=
  "Failed to send request: Unexpected response code: " ++ toString code

/-- Error message of `request` on a body that is not valid JSON
(lines 303-309). -/
def httpRequestBadBodyMsg (e : String) : String :=
  "Failed to send request: Invalid JSON response: " ++ e

/-- `StreamableHTTP.notify` (lines 250-273): build headers, POST, fail
unless the status is 202, then capture any session header. -/
def httpNotify (s : HTTPState) (resp : HTTPResponse) : HTTPOut Unit :=
  let hs := _build_headers s
  if resp.status ≠ 202 then
    { out := .error (httpNotifyFailMsg resp.status), state := s, sent := hs }
  else
    { out := .ok (), state := _extract_session_id s resp.headers, sent := hs }

/-- `StreamableHTTP.request` (lines 275-309): build headers, POST,
fail unless the status is 200, capture any session header (before the
body is read), then parse the body. -/
def httpRequest (s : HTTPState) (resp : HTTPResponse) : HTTPOut PyValue :=
  let hs := _build_headers s
  if resp.status ≠ 200 then
    { out := .error (httpRequestFailCodeMsg resp.status), state := s, sent := hs }
  else
    let s2 := _extract_session_id s resp.headers
    match resp.body with
    | .ok v => { out := .ok v, state := s2, sent := hs }
    | .error e => { out := .error (httpRequestBadBodyMsg e), state := s2, sent := hs }

/-- A fresh HTTP transport with no custom headers and no session. -/
def freshHTTP : HTTPState := { headersCustom := [], session_id := none }

/-- A response that carries a session header whose value is the empty
string (an empty-valued header is legal HTTP). -/
def emptySessionResp : HTTPResponse :=
  { status := 202, headers := [("Mcp-Session-Id", "")], body := .ok (.pydict []) }

/-- A plain successful response carrying no session header. -/
def plainOkResp : HTTPResponse :=
  { status := 200, headers := [], body := .ok (.pydict []) }

end MCP

namespace MCP

/-- Claim C6: for every supplied argument whose name appears in the
schema's properties with a declared type, a `None` value passes the
per-parameter check if and only if the declared type is `"null"`; any
other type mismatch (a non-`None` value failing the `isinstance` check
against a supported declared type) raises an error naming the
parameter, the expected declared type, and the actual observed type. -/
theorem c6_null_and_type_mismatch (tool pname ptype : String) (v : PyValue)
    (pt : PyType) :
    ((checkParamType tool pname ptype PyValue.pynone = .ok ()) ↔ ptype = "null")
    ∧ (v ≠ PyValue.pynone → schema_type_to_python_type ptype = some pt →
        isinstance v pt = false →
        checkParamType tool pname ptype v = .error (typeMismatchMsg tool pname ptype v)) := by
  constructor
  · constructor
    · intro h
      by_contra hne
      simp only [checkParamType, if_pos hne] at h
      exact Except.noConfusion h
    · intro h
      simp [checkParamType, h]
  · intro hv htab hinst
    cases v with
    | pynone => exact absurd rfl hv
    | pybool b => simp [checkParamType, htab, hinst]
    | pyint n => simp [checkParamType, htab, hinst]
    | pyfloat => simp [checkParamType, htab, hinst]
    | pystr s => simp [checkParamType, htab, hinst]
    | pylist l => simp [checkParamType, htab, hinst]
    | pydict d => simp [checkParamType, htab, hinst]

/-- Witness for C6 at concrete inputs: `None` is accepted for declared
type `"null"`, and a string argument for declared type `"integer"`
fails with the message naming the parameter, `"integer"`, and `str`. -/
theorem c6_witness :
    (checkParamType "t" "p" "null" PyValue.pynone = .ok ())
    ∧ (checkParamType "t" "p" "integer" (PyValue.pystr "a")
        = .error (typeMismatchMsg "t" "p" "integer" (PyValue.pystr "a"))) := by
  constructor
  · exact (c6_null_and_type_mismatch "t" "p" "null" (PyValue.pystr "a") PyType.tInt).1.mpr rfl
  · exact (c6_null_and_type_mismatch "t" "p" "integer" (PyValue.pystr "a") PyType.tInt).2
      (by intro h; cases h) rfl rfl

/-- Claim C7: whenever the schema-type guard does not itself block (the
declared schema type is absent, falsy, or `"object"`) and one or more
required names are absent from the supplied arguments, validation
fails with a single error listing all of the missing required names
together. -/
theorem c7_missing_required_all_listed (tool : String) (schema : InputSchema)
    (kwargs : Kwargs)
    (hty : schemaTypeBlocks schema = false)
    (hmiss : missingRequired schema kwargs ≠ []) :
    checkArgs tool schema kwargs
      = .error (missingRequiredMsg tool (missingRequired schema kwargs)) := by
  have hne : (missingRequired schema kwargs).isEmpty = false := by
    cases h : missingRequired schema kwargs with
    | nil => exact absurd h hmiss
    | cons a l => simp [List.isEmpty]
  simp [checkArgs, hty, hne]

/-- Witness for C7: a schema requiring `a` and `b`, called with neither,
fails listing both missing names together. -/
theorem c7_witness :
    checkArgs "t"
      { type := some "object",
        properties := [("a", { type := some "string" }), ("b", { type := some "integer" })],
        required := ["a", "b"] } []
      = .error (missingRequiredMsg "t" ["a", "b"]) := by
  have h := c7_missing_required_all_listed "t"
    { type := some "object",
      properties := [("a", { type := some "string" }), ("b", { type := some "integer" })],
      required := ["a", "b"] } [] (by decide) (by decide)
  simpa using h

/-- Claim C10: for a parameter declared `"integer"` or `"number"`, a
boolean argument value passes the per-parameter type check, because
`bool` is a subclass of `int` in Python and the type table maps
`"integer"` to `int` and `"number"` to `(int, float)`. -/
theorem c10_bool_numeric_ok (tool pname : String) (b : Bool) (ptype : String)
    (h : ptype = "integer" ∨ ptype = "number") :
    checkParamType tool pname ptype (PyValue.pybool b) = .ok () := by
  cases h with
  | inl h => subst h; simp [checkParamType, schema_type_to_python_type, isinstance]
  | inr h => subst h; simp [checkParamType, schema_type_to_python_type, isinstance]

/-- Witness for C10: `True` is accepted for a parameter declared
`"integer"` and for one declared `"number"`. -/
theorem c10_witness :
    checkParamType "t" "p" "integer" (PyValue.pybool true) = .ok ()
    ∧ checkParamType "t" "p" "number" (PyValue.pybool false) = .ok () := by
  exact ⟨c10_bool_numeric_ok "t" "p" true "integer" (Or.inl rfl),
         c10_bool_numeric_ok "t" "p" false "number" (Or.inr rfl)⟩

/-- `requestIds` distributes over trace concatenation. -/
theorem requestIds_append (a b : List TraceEvent) :
    requestIds (a ++ b) = requestIds a ++ requestIds b := by
  simp [requestIds, List.filterMap_append]

/-- `initialize` performs exactly one request, with id
`request_id + 1`. -/
theorem initClient_ids (t : TransportModel) (s : ClientState) :
    ∃ k, requestIds (initClient t s).trace = List.range' (s.request_id + 1) k
      ∧ (initClient t s).state.request_id = s.request_id + k := by
  refine ⟨1, ?_⟩
  cases hc : s.connected with
  | true =>
    cases hr : t.request (initRequestOf s) with
    | error e =>
      simp only [initRequestOf] at hr
      simp [initClient, _build_request, hc, hr, requestIds, List.range']
    | ok resp =>
      simp only [initRequestOf] at hr
      cases hres : resp.result with
      | none => simp [initClient, _build_request, hc, hr, hres, requestIds, List.range']
      | some r =>
        cases hn : t.notify initNotification with
        | error e =>
          simp [initClient, _build_request, hc, hr, hres, hn, requestIds, List.range']
        | ok u =>
          simp [initClient, _build_request, hc, hr, hres, hn, requestIds, List.range']
  | false =>
    cases hr : t.request (initRequestOf s) with
    | error e =>
      simp only [initRequestOf] at hr
      simp [initClient, _build_request, hc, hr, requestIds, List.range']
    | ok resp =>
      simp only [initRequestOf] at hr
      cases hres : resp.result with
      | none => simp [initClient, _build_request, hc, hr, hres, requestIds, List.range']
      | some r =>
        cases hn : t.notify initNotification with
        | error e =>
          simp [initClient, _build_request, hc, hr, hres, hn, requestIds, List.range']
        | ok u =>
          simp [initClient, _build_request, hc, hr, hres, hn, requestIds, List.range']

/-- `list_tools` performs zero requests (gate failure or cache hit) or
one `tools/list` request with id `request_id + 1`. -/
theorem list_tools_ids (t : TransportModel) (s : ClientState) :
    ∃ k, requestIds (list_tools t s).trace = List.range' (s.request_id + 1) k
      ∧ (list_tools t s).state.request_id = s.request_id + k := by
  by_cases hg : (!s.connected || s.server_info.isNone) = true
  · exact ⟨0, by simp [list_tools, hg, requestIds, List.range'],
          by simp [list_tools, hg]⟩
  · cases hc : s.tools_cache with
    | some c =>
      exact ⟨0, by simp [list_tools, hg, hc, requestIds, List.range'],
            by simp [list_tools, hg, hc]⟩
    | none =>
      cases hr : t.request (toolsListRequestOf s) with
      | error e =>
        simp only [toolsListRequestOf] at hr
        exact ⟨1, by simp [list_tools, _build_request, hg, hc, hr, requestIds, List.range'],
              by simp [list_tools, _build_request, hg, hc, hr]⟩
      | ok resp =>
        simp only [toolsListRequestOf] at hr
        cases hres : resp.result with
        | some r =>
          exact ⟨1, by simp [list_tools, _build_request, hg, hc, hr, hres, requestIds,
                  List.range'],
                by simp [list_tools, _build_request, hg, hc, hr, hres]⟩
        | none =>
          exact ⟨1, by simp [list_tools, _build_request, hg, hc, hr, hres, requestIds,
                  List.range'],
                by simp [list_tools, _build_request, hg, hc, hr, hres]⟩

/-- `get_tool` leaves the trace and state of its inner `list_tools`
call (or does nothing when the gate fails). -/
theorem get_tool_ids (t : TransportModel) (s : ClientState) (n : String) :
    ∃ k, requestIds (get_tool t s n).trace = List.range' (s.request_id + 1) k
      ∧ (get_tool t s n).state.request_id = s.request_id + k := by
  by_cases hg : (!s.connected || s.server_info.isNone) = true
  · exact ⟨0, by simp [get_tool, hg, requestIds, List.range'], by simp [get_tool, hg]⟩
  · obtain ⟨k, h1, h2⟩ := list_tools_ids t s
    refine ⟨k, ?_, ?_⟩ <;>
      (cases ho : (list_tools t s).out with
       | error e => simpa [get_tool, hg, ho] using (by first | exact h1 | exact h2)
       | ok tr =>
         cases hf : tr.getTools.find? (fun td => td.name = n) with
         | some td => simpa [get_tool, hg, ho, hf] using (by first | exact h1 | exact h2)
         | none => simpa [get_tool, hg, ho, hf] using (by first | exact h1 | exact h2))

/-- `validate` leaves the trace and state of its inner `get_tool`
call. -/
theorem validate_ids (t : TransportModel) (s : ClientState) (n : String) (kw : Kwargs) :
    ∃ k, requestIds (validate t s n kw).trace = List.range' (s.request_id + 1) k
      ∧ (validate t s n kw).state.request_id = s.request_id + k := by
  obtain ⟨k, h1, h2⟩ := get_tool_ids t s n
  refine ⟨k, ?_, ?_⟩ <;>
    (cases ho : (get_tool t s n).out with
     | error e => simpa [validate, ho] using (by first | exact h1 | exact h2)
     | ok td =>
       cases hch : checkArgs n td.inputSchema kw with
       | error m => simpa [validate, ho, hch] using (by first | exact h1 | exact h2)
       | ok u => simpa [validate, ho, hch] using (by first | exact h1 | exact h2))

/-- `call_tool` performs the requests of its validation step plus, when
validation passes, one `tools/call` request with the next id. -/
theorem call_tool_ids (t : TransportModel) (s : ClientState) (n : String) (kw : Kwargs) :
    ∃ k, requestIds (call_tool t s n kw).trace = List.range' (s.request_id + 1) k
      ∧ (call_tool t s n kw).state.request_id = s.request_id + k := by
  by_cases hg : (!s.connected || s.server_info.isNone) = true
  · exact ⟨0, by simp [call_tool, hg, requestIds, List.range'], by simp [call_tool, hg]⟩
  · obtain ⟨k, h1, h2⟩ := validate_ids t s n kw
    cases ho : (validate t s n kw).out with
    | error e =>
      exact ⟨k, by simpa [call_tool, hg, ho] using h1, by simpa [call_tool, hg, ho] using h2⟩
    | ok u =>
      have hreq : ∀ tr : List TraceEvent,
          tr = (validate t s n kw).trace
            ++ [.req (callRequestOf (validate t s n kw).state n kw)] →
          requestIds tr = List.range' (s.request_id + 1) (k + 1) := by
        intro tr htr
        rw [htr, requestIds_append, h1]
        have hone : requestIds [TraceEvent.req (callRequestOf (validate t s n kw).state n kw)]
            = [s.request_id + 1 + k] := by
          simp [requestIds, callRequestOf, h2]
          omega
        rw [hone, List.range'_concat]
        congr 1
        simp
      cases hr : t.request (callRequestOf (validate t s n kw).state n kw) with
      | error e =>
        simp only [callRequestOf] at hr
        refine ⟨k + 1, ?_, ?_⟩
        · exact hreq _ (by simp [call_tool, _build_request, callRequestOf, hg, ho, hr])
        · simp [call_tool, _build_request, hg, ho, hr]
          omega
      | ok resp =>
        simp only [callRequestOf] at hr
        cases hres : resp.result with
        | some r =>
          refine ⟨k + 1, ?_, ?_⟩
          · exact hreq _ (by simp [call_tool, _build_request, callRequestOf, hg, ho, hr, hres])
          · simp [call_tool, _build_request, hg, ho, hr, hres]
            omega
        | none =>
          refine ⟨k + 1, ?_, ?_⟩
          · exact hreq _ (by simp [call_tool, _build_request, callRequestOf, hg, ho, hr, hres])
          · simp [call_tool, _build_request, hg, ho, hr, hres]
            omega

/-- Every single operation emits request ids consecutive from
`request_id + 1` and advances the counter by exactly the number of
requests emitted. -/
theorem runOp_ids (t : TransportModel) (s : ClientState) (op : ClientOp) :
    ∃ k, requestIds (runOp t s op).2 = List.range' (s.request_id + 1) k
      ∧ (runOp t s op).1.request_id = s.request_id + k := by
  cases op with
  | opInit => exact initClient_ids t s
  | opListTools => exact list_tools_ids t s
  | opGetTool n => exact get_tool_ids t s n
  | opValidate n kw => exact validate_ids t s n kw
  | opCallTool n kw => exact call_tool_ids t s n kw
  | opClose => exact ⟨0, by simp [runOp, requestIds, List.range'], by simp [runOp, closeClient]⟩

/-- Over any operation sequence the emitted request ids are consecutive
from `request_id + 1`. -/
theorem runOps_ids (t : TransportModel) : ∀ (ops : List ClientOp) (s : ClientState),
    ∃ k, requestIds (runOps t s ops).2 = List.range' (s.request_id + 1) k
      ∧ (runOps t s ops).1.request_id = s.request_id + k
  | [], s => ⟨0, by simp [runOps, requestIds, List.range'], by simp [runOps]⟩
  | op :: rest, s => by
    obtain ⟨k1, h1, h2⟩ := runOp_ids t s op
    obtain ⟨k2, h3, h4⟩ := runOps_ids t rest (runOp t s op).1
    refine ⟨k2 + k1, ?_, ?_⟩
    · have hsplit : (runOps t s (op :: rest)).2
          = (runOp t s op).2 ++ (runOps t (runOp t s op).1 rest).2 := rfl
      rw [hsplit, requestIds_append, h1, h3, h2]
      have harg : s.request_id + k1 + 1 = s.request_id + 1 + 1 * k1 := by omega
      rw [harg, List.range'_append]
    · have hsplit : (runOps t s (op :: rest)).1 = (runOps t (runOp t s op).1 rest).1 := rfl
      rw [hsplit, h4, h2]
      omega

/-- Claim C2: over every sequence of client operations on one fresh
`MCPClient`, the ids attached to outgoing JSON-RPC requests are exactly
`1, 2, 3, …` in order — strictly increasing from 1, advanced only when
a request (never a notification) is emitted, and never reused or reset
(`close` does not touch the counter). -/
theorem c2_request_ids_strictly_increasing (t : TransportModel) (ops : List ClientOp) :
    requestIds (runOps t freshClient ops).2
      = List.range' 1 (requestIds (runOps t freshClient ops).2).length := by
  obtain ⟨k, h1, _⟩ := runOps_ids t ops freshClient
  rw [h1]
  simp [freshClient, List.length_range']

/-- The only transport I/O `list_tools` can perform is the single
`tools/list` request. -/
theorem list_tools_trace_shape (t : TransportModel) (s : ClientState) :
    (list_tools t s).trace = [] ∨ (list_tools t s).trace = [.req (toolsListRequestOf s)] := by
  by_cases hg : (!s.connected || s.server_info.isNone) = true
  · exact Or.inl (by simp [list_tools, hg])
  · cases hc : s.tools_cache with
    | some c => exact Or.inl (by simp [list_tools, hg, hc])
    | none =>
      cases hr : t.request (toolsListRequestOf s) with
      | error e =>
        simp only [toolsListRequestOf] at hr
        exact Or.inr (by simp [list_tools, _build_request, toolsListRequestOf, hg, hc, hr])
      | ok resp =>
        simp only [toolsListRequestOf] at hr
        cases hres : resp.result with
        | some r =>
          exact Or.inr
            (by simp [list_tools, _build_request, toolsListRequestOf, hg, hc, hr, hres])
        | none =>
          exact Or.inr
            (by simp [list_tools, _build_request, toolsListRequestOf, hg, hc, hr, hres])

/-- With a cached catalog, `list_tools` performs no transport I/O. -/
theorem list_tools_trace_cached (t : TransportModel) (s : ClientState) (c : RpcResult)
    (h : s.tools_cache = some c) : (list_tools t s).trace = [] := by
  by_cases hg : (!s.connected || s.server_info.isNone) = true
  · simp [list_tools, hg]
  · simp [list_tools, hg, h]

/-- The only transport I/O `get_tool` can perform is its inner
`list_tools` call's. -/
theorem get_tool_trace_shape (t : TransportModel) (s : ClientState) (n : String) :
    (get_tool t s n).trace = [] ∨ (get_tool t s n).trace = [.req (toolsListRequestOf s)] := by
  by_cases hg : (!s.connected || s.server_info.isNone) = true
  · exact Or.inl (by simp [get_tool, hg])
  · have h := list_tools_trace_shape t s
    cases ho : (list_tools t s).out with
    | error e => simpa [get_tool, hg, ho] using h
    | ok tr =>
      cases hf : tr.getTools.find? (fun td => td.name = n) with
      | some td => simpa [get_tool, hg, ho, hf] using h
      | none => simpa [get_tool, hg, ho, hf] using h

/-- With a cached catalog, `get_tool` performs no transport I/O. -/
theorem get_tool_trace_cached (t : TransportModel) (s : ClientState) (n : String)
    (c : RpcResult) (h : s.tools_cache = some c) : (get_tool t s n).trace = [] := by
  by_cases hg : (!s.connected || s.server_info.isNone) = true
  · simp [get_tool, hg]
  · have hl := list_tools_trace_cached t s c h
    cases ho : (list_tools t s).out with
    | error e => simpa [get_tool, hg, ho] using hl
    | ok tr =>
      cases hf : tr.getTools.find? (fun td => td.name = n) with
      | some td => simpa [get_tool, hg, ho, hf] using hl
      | none => simpa [get_tool, hg, ho, hf] using hl

/-- The only transport I/O `validate` can perform is its inner
`get_tool` call's. -/
theorem validate_trace_shape (t : TransportModel) (s : ClientState) (n : String)
    (kw : Kwargs) :
    (validate t s n kw).trace = []
      ∨ (validate t s n kw).trace = [.req (toolsListRequestOf s)] := by
  have h := get_tool_trace_shape t s n
  cases ho : (get_tool t s n).out with
  | error e => simpa [validate, ho] using h
  | ok td =>
    cases hch : checkArgs n td.inputSchema kw with
    | error m => simpa [validate, ho, hch] using h
    | ok u => simpa [validate, ho, hch] using h

/-- With a cached catalog, `validate` performs no transport I/O. -/
theorem validate_trace_cached (t : TransportModel) (s : ClientState) (n : String)
    (kw : Kwargs) (c : RpcResult) (h : s.tools_cache = some c) :
    (validate t s n kw).trace = [] := by
  have hg := get_tool_trace_cached t s n c h
  cases ho : (get_tool t s n).out with
  | error e => simpa [validate, ho] using hg
  | ok td =>
    cases hch : checkArgs n td.inputSchema kw with
    | error m => simpa [validate, ho, hch] using hg
    | ok u => simpa [validate, ho, hch] using hg

/-- Counterexample to claim C1 as stated: on an initialized client
whose tool catalog is not yet cached, `call_tool` with arguments
missing the declared-required parameter `x` raises the validation
`ValueError` — yet its transport trace is not empty: the validation
step itself fetched the catalog over the transport. -/
theorem c1_counterexample :
    (call_tool cxTransport cxState "t1" []).out
      = .error (.valueError (missingRequiredMsg "t1" ["x"]))
    ∧ (call_tool cxTransport cxState "t1" []).trace ≠ [] := by
  constructor
  · rfl
  · intro hfalse
    have hx : (call_tool cxTransport cxState "t1" []).trace
        = [.req (toolsListRequestOf cxState)] := rfl
    rw [hx] at hfalse
    exact List.noConfusion hfalse

/-- Claim C1 (amended): when `call_tool` fails with a validation
`ValueError`, no `tools/call` request and no notification has been
sent — the only transport I/O that may precede the validation outcome
is the single `tools/list` catalog fetch, and when the catalog is
already cached the trace is empty. -/
theorem c1_call_tool_validation_io (t : TransportModel) (s : ClientState)
    (tool : String) (kwargs : Kwargs) (m : String)
    (h : (call_tool t s tool kwargs).out = .error (.valueError m)) :
    ((call_tool t s tool kwargs).trace = []
      ∨ (call_tool t s tool kwargs).trace = [.req (toolsListRequestOf s)])
    ∧ (∀ c, s.tools_cache = some c → (call_tool t s tool kwargs).trace = []) := by
  by_cases hg : (!s.connected || s.server_info.isNone) = true
  · rw [show (call_tool t s tool kwargs).out
        = .error (.mcpError notInitializedMsg) from by simp [call_tool, hg]] at h
    simp at h
  · cases ho : (validate t s tool kwargs).out with
    | error e =>
      constructor
      · simpa [call_tool, hg, ho] using validate_trace_shape t s tool kwargs
      · intro c hc
        simpa [call_tool, hg, ho] using validate_trace_cached t s tool kwargs c hc
    | ok u =>
      exfalso
      cases hr : t.request (callRequestOf (validate t s tool kwargs).state tool kwargs) with
      | error e =>
        simp only [callRequestOf] at hr
        rw [show (call_tool t s tool kwargs).out = .error (.transErr e) from
          by simp [call_tool, _build_request, hg, ho, hr]] at h
        simp at h
      | ok resp =>
        simp only [callRequestOf] at hr
        cases hres : resp.result with
        | some r =>
          rw [show (call_tool t s tool kwargs).out = .ok r from
            by simp [call_tool, _build_request, hg, ho, hr, hres]] at h
          simp at h
        | none =>
          rw [show (call_tool t s tool kwargs).out
              = .error (.mcpError ("Failed to call tool " ++ pyq ++ tool ++ pyq
                ++ ": " ++ resp.error.getD "Error in tool call")) from
            by simp [call_tool, _build_request, hg, ho, hr, hres]] at h
          simp at h

/-- Witness for the amended C1: with the catalog already cached, the
same failing `call_tool` performs zero transport I/O. -/
theorem c1_witness :
    (call_tool cxTransport cxStateCached "t1" []).trace = [] := by
  have h := c1_call_tool_validation_io cxTransport cxStateCached "t1" []
    (missingRequiredMsg "t1" ["x"]) rfl
  exact h.2 (.listing [cxToolDef]) rfl

/-- Claim C4: when the `initialize` response carries a `"result"` but
the subsequent `notifications/initialized` notification fails, the
notify failure propagates verbatim (it is not converted into the
client's `MCPError` initialization failure), yet the Ready transition
is not rolled back: server info stays cached, the client stays
connected, and Ready-only operations such as `list_tools` proceed. -/
theorem c4_notify_failure_keeps_ready (t : TransportModel) (s : ClientState)
    (resp : RpcResponse) (r : RpcResult) (e : String)
    (hreq : t.request (initRequestOf s) = .ok resp)
    (hres : resp.result = some r)
    (hnot : t.notify initNotification = .error e) :
    (initClient t s).out = .error (.transErr e)
    ∧ (initClient t s).state.server_info = some r
    ∧ (initClient t s).state.connected = true
    ∧ (initClient t s).state.tools_cache = s.tools_cache
    ∧ (∀ t2 resp2 r2, s.tools_cache = none →
        t2.request (toolsListRequestOf (initClient t s).state) = .ok resp2 →
        resp2.result = some r2 →
        (list_tools t2 (initClient t s).state).out = .ok r2) := by
  simp only [initRequestOf] at hreq
  cases hc : s.connected with
  | true =>
    have hst : initClient t s
        = { out := .error (.transErr e),
            state := { s with request_id := s.request_id + 1, server_info := some r },
            trace := [.req (initRequestOf s), .notif initNotification] } := by
      simp [initClient, _build_request, initRequestOf, hc, hreq, hres, hnot]
    rw [hst]
    refine ⟨rfl, rfl, hc, rfl, ?_⟩
    intro t2 resp2 r2 hcache hreq2 hres2
    simp only [toolsListRequestOf] at hreq2
    simp [list_tools, _build_request, hc, hcache, hreq2, hres2]
  | false =>
    have hst : initClient t s
        = { out := .error (.transErr e),
            state := { s with connected := true, request_id := s.request_id + 1, server_info := some r },
            trace := [.req (initRequestOf s), .notif initNotification] } := by
      simp [initClient, _build_request, initRequestOf, hc, hreq, hres, hnot]
    rw [hst]
    refine ⟨rfl, rfl, rfl, rfl, ?_⟩
    intro t2 resp2 r2 hcache hreq2 hres2
    simp only [toolsListRequestOf] at hreq2
    simp [list_tools, _build_request, hcache, hreq2, hres2]

/-- Witness for C4: a concrete transport whose notify raises leaves the
client Ready with the server info cached, and `list_tools` then
succeeds. -/
theorem c4_witness :
    (initClient cxNotifyFailTransport freshClient).out = .error (.transErr "pipe closed")
    ∧ (initClient cxNotifyFailTransport freshClient).state.server_info
        = some (.val (.pystr "srv"))
    ∧ (list_tools cxNotifyFailTransport
        (initClient cxNotifyFailTransport freshClient).state).out
        = .ok (.listing [cxToolDef]) := by
  have h := c4_notify_failure_keeps_ready cxNotifyFailTransport freshClient
    { result := some (.val (.pystr "srv")), error := none } (.val (.pystr "srv"))
    "pipe closed" rfl rfl rfl
  exact ⟨h.1, h.2.1,
    h.2.2.2.2 cxNotifyFailTransport
      { result := some (.listing [cxToolDef]), error := none } (.listing [cxToolDef])
      rfl rfl rfl⟩

/-- Claim C5: on an initialized client with no cached catalog, the
first `list_tools` sends exactly one `tools/list` request, caches the
`"result"`, and returns it; the second `list_tools` returns the same
cached object with no transport I/O at all. -/
theorem c5_list_tools_cached_once (t : TransportModel) (s : ClientState)
    (si : RpcResult) (resp : RpcResponse) (r : RpcResult)
    (hconn : s.connected = true)
    (hinfo : s.server_info = some si)
    (hcache : s.tools_cache = none)
    (hreq : t.request (toolsListRequestOf s) = .ok resp)
    (hres : resp.result = some r) :
    (list_tools t s).out = .ok r
    ∧ (list_tools t s).trace = [.req (toolsListRequestOf s)]
    ∧ (list_tools t s).state.tools_cache = some r
    ∧ (list_tools t (list_tools t s).state).out = .ok r
    ∧ (list_tools t (list_tools t s).state).trace = [] := by
  simp only [toolsListRequestOf] at hreq
  have hst : list_tools t s
      = { out := .ok r,
          state := { s with request_id := s.request_id + 1, tools_cache := some r },
          trace := [.req (toolsListRequestOf s)] } := by
    simp [list_tools, _build_request, toolsListRequestOf, hconn, hinfo, hcache, hreq, hres]
  rw [hst]
  refine ⟨rfl, rfl, rfl, ?_, ?_⟩ <;> simp [list_tools, hconn, hinfo]

/-- Witness for C5 at a concrete transport and client state. -/
theorem c5_witness :
    (list_tools cxTransport cxState).out = .ok (.listing [cxToolDef])
    ∧ (list_tools cxTransport cxState).trace = [.req (toolsListRequestOf cxState)]
    ∧ (list_tools cxTransport (list_tools cxTransport cxState).state).out
        = .ok (.listing [cxToolDef])
    ∧ (list_tools cxTransport (list_tools cxTransport cxState).state).trace = [] := by
  have h := c5_list_tools_cached_once cxTransport cxState (.val (.pydict []))
    { result := some (.listing [cxToolDef]), error := none } (.listing [cxToolDef])
    rfl rfl rfl rfl rfl
  exact ⟨h.1, h.2.1, h.2.2.2.1, h.2.2.2.2⟩

/-- Claim C3 (the code, evaluated at the claim's failing input): when
the subprocess stdout stream is closed (EOF) with no data available,
`Stdio.request` fails — but with the wrapped `json.loads` decode error
on the empty document, not with the `"No response from MCP server"`
error the spec and the repository's own unit test
`test_stdout_read_no_data` expect; the message is also distinct from
the timeout error raised when no data arrives within the configured
timeout. -/
theorem c3_stdio_eof_error :
    stdioRequest eofStdioState 5
      = .error (stdioRequestWrapMsg jsonEmptyDocErrorMsg)
    ∧ stdioRequestWrapMsg jsonEmptyDocErrorMsg ≠ testExpectedNoResponseMsg
    ∧ stdioRequestWrapMsg jsonEmptyDocErrorMsg ≠ stdioRequestWrapMsg (stdoutTimeoutMsg 5) := by
  refine ⟨rfl, ?_, ?_⟩ <;> decide

/-- After `d[k] = v`, looking up `k` yields `v`. -/
theorem lookup_dictSet (d : List (String × String)) (k v : String) :
    (dictSet d k v).lookup k = some v := by
  induction d with
  | nil => simp [dictSet, List.lookup]
  | cons p rest ih =>
    by_cases h : p.1 = k
    · simp [dictSet, h, List.lookup]
    · have hbeq : (k == p.1) = false := by
        simp [BEq.beq]
        exact fun he => h he.symm
      simp [dictSet, h, List.lookup, hbeq, ih]

/-- Counterexample to claim C8 as stated: a session header can be
observed — the server answers a successful notification with an
`Mcp-Session-Id` header whose value is the empty string, and the
transport captures it — yet the next outgoing request does not include
the session header at all, because `_build_headers` attaches it only
when the stored value is truthy. -/
theorem c8_counterexample :
    (httpNotify freshHTTP emptySessionResp).out = .ok ()
    ∧ (httpNotify freshHTTP emptySessionResp).state.session_id = some ""
    ∧ ((httpRequest (httpNotify freshHTTP emptySessionResp).state plainOkResp).sent.lookup
        "Mcp-Session-Id") = none := by
  refine ⟨rfl, rfl, ?_⟩
  decide

/-- Claim C8 (amended): once a session header with a non-empty value
has been captured, every subsequent outgoing request and notification
on that transport carries `Mcp-Session-Id` with the captured value
verbatim; a session header present in a later successful response
overwrites the stored value (and the stored value is never cleared).
An empty-valued captured header is stored but not attached, since
attachment tests Python truthiness. -/
theorem c8_session_header (s : HTTPState) (v : String) (resp : HTTPResponse) (h : String) :
    (s.session_id = some v → v ≠ "" →
      (httpRequest s resp).sent.lookup "Mcp-Session-Id" = some v
      ∧ (httpNotify s resp).sent.lookup "Mcp-Session-Id" = some v)
    ∧ (resp.headers.lookup "Mcp-Session-Id" = some h → resp.status = 202 →
        (httpNotify s resp).state.session_id = some h)
    ∧ (resp.headers.lookup "Mcp-Session-Id" = some h → resp.status = 200 →
        (httpRequest s resp).state.session_id = some h)
    ∧ ((_extract_session_id s resp.headers).session_id = none → s.session_id = none) := by
  have hsent : ∀ hv : s.session_id = some v, v ≠ "" →
      (_build_headers s).lookup "Mcp-Session-Id" = some v := by
    intro hv hne
    simp only [_build_headers, hv, if_pos hne]
    exact lookup_dictSet _ _ _
  refine ⟨?_, ?_, ?_, ?_⟩
  · intro hv hne
    constructor
    · by_cases hst : resp.status ≠ 200
      · simp [httpRequest, hst, hsent hv hne]
      · cases hb : resp.body with
        | ok vb => simp [httpRequest, hst, hb, hsent hv hne]
        | error e => simp [httpRequest, hst, hb, hsent hv hne]
    · by_cases hst : resp.status ≠ 202 <;> simp [httpNotify, hst, hsent hv hne]
  · intro hh hst
    simp [httpNotify, hst, _extract_session_id, hh]
  · intro hh hst
    cases hb : resp.body with
    | ok vb => simp [httpRequest, hst, _extract_session_id, hh, hb]
    | error e => simp [httpRequest, hst, _extract_session_id, hh, hb]
  · intro hnone
    cases hl : resp.headers.lookup "Mcp-Session-Id" with
    | none => simpa [_extract_session_id, hl] using hnone
    | some x => simp [_extract_session_id, hl] at hnone

/-- Witness for the amended C8: with `abc` captured, a request and a
notification both carry the header; a later 200-response carrying
`xyz` overwrites the stored value. -/
theorem c8_witness :
    (httpRequest { headersCustom := [], session_id := some "abc" } plainOkResp).sent.lookup
      "Mcp-Session-Id" = some "abc"
    ∧ (httpNotify { headersCustom := [], session_id := some "abc" } emptySessionResp).sent.lookup
      "Mcp-Session-Id" = some "abc"
    ∧ (httpRequest { headersCustom := [], session_id := some "abc" }
        { status := 200, headers := [("Mcp-Session-Id", "xyz")],
          body := .ok (.pydict []) }).state.session_id = some "xyz" := by
  have h1 := c8_session_header { headersCustom := [], session_id := some "abc" } "abc"
    plainOkResp "xyz"
  have h2 := c8_session_header { headersCustom := [], session_id := some "abc" } "abc"
    emptySessionResp "xyz"
  have h3 := c8_session_header { headersCustom := [], session_id := some "abc" } "abc"
    { status := 200, headers := [("Mcp-Session-Id", "xyz")], body := .ok (.pydict []) } "xyz"
  exact ⟨(h1.1 rfl (by decide)).1, (h2.1 rfl (by decide)).2, h3.2.2.1 rfl rfl⟩

/-- Claim C9: `StreamableHTTP.notify` succeeds exactly on status 202;
`StreamableHTTP.request` succeeds only on status 200; any other status
makes the operation fail with the transport's unexpected-response-code
error. -/
theorem c9_http_status_gates (s : HTTPState) (resp : HTTPResponse) :
    ((httpNotify s resp).out.isOk = true ↔ resp.status = 202)
    ∧ ((httpRequest s resp).out.isOk = true → resp.status = 200)
    ∧ (resp.status ≠ 202 → (httpNotify s resp).out = .error (httpNotifyFailMsg resp.status))
    ∧ (resp.status ≠ 200 → (httpRequest s resp).out = .error (httpRequestFailCodeMsg resp.status)) := by
  refine ⟨?_, ?_, ?_, ?_⟩
  · by_cases hst : resp.status = 202
    · simp [httpNotify, hst, Except.isOk, Except.toBool]
    · simp [httpNotify, hst, Except.isOk, Except.toBool]
  · intro hok
    by_cases hst : resp.status = 200
    · exact hst
    · simp [httpRequest, hst, Except.isOk, Except.toBool] at hok
  · intro hst
    simp [httpNotify, hst]
  · intro hst
    simp [httpRequest, hst]

/-- Witness for C9: a 202 notification succeeds; a 500 notification
and a 500 request both fail with the unexpected-response-code
error. -/
theorem c9_witness :
    (httpNotify freshHTTP emptySessionResp).out.isOk = true
    ∧ (httpNotify freshHTTP { status := 500, headers := [], body := .ok (.pydict []) }).out
        = .error (httpNotifyFailMsg 500)
    ∧ (httpRequest freshHTTP { status := 500, headers := [], body := .ok (.pydict []) }).out
        = .error (httpRequestFailCodeMsg 500) := by
  refine ⟨(c9_http_status_gates freshHTTP emptySessionResp).1.mpr rfl, ?_, ?_⟩
  · exact (c9_http_status_gates freshHTTP
      { status := 500, headers := [], body := .ok (.pydict []) }).2.2.1 (by decide)
  · exact (c9_http_status_gates freshHTTP
      { status := 500, headers := [], body := .ok (.pydict []) }).2.2.2 (by decide)

end MCP
